import Mathlib

/-!
Verification of the breast-cancer prediction web application (`src/app.py`).

The application is a small Flask app: it parses a comma-separated list of 30
feature values from a form, runs a (scaler, model) pair on them, stores the
raw parsed values together with the predicted label in a SQLite table whose
feature columns are generated from the `feature_names` constant, and lists
stored predictions ordered by timestamp descending.

This file gives a shallow embedding of that program and proves the spec's
claims about it.  Python floats are modelled as rationals with an explicit
parser for the decimal grammar (sign, digits, fractional part, exponent;
the exotic `inf`/`nan`/underscore forms accepted by Python's `float` are not
modelled, no claim depends on them).  Exceptions are modelled by `Option` /
`Except`, the database by an explicit list of rows, and a write or read
failure of the store by a boolean flag.
-/

namespace App

/-- The 30 breast-cancer feature names, verbatim from `app.py` lines 17-26. -/
def feature_names : List String := [
    "mean radius", "mean texture", "mean perimeter", "mean area", "mean smoothness",
    "mean compactness", "mean concavity", "mean concave points", "mean symmetry",
    "mean fractal dimension", "radius error", "texture error", "perimeter error",
    "area error", "smoothness error", "compactness error", "concavity error",
    "concave points error", "symmetry error", "fractal dimension error",
    "worst radius", "worst texture", "worst perimeter", "worst area",
    "worst smoothness", "worst compactness", "worst concavity",
    "worst concave points", "worst symmetry", "worst fractal dimension"]

/-- Column-name sanitization `fn.replace(' ', '_')` (lines 49 and 125): every
space becomes an underscore.  The pattern is a single character, so a
character-by-character map is an exact model. -/
def sanitize (fn : String) : String :=
  (fn.data.map (fun c => if c = ' ' then '_' else c)).asString

/-- Model of Python's `str.strip()`: drop leading and trailing whitespace. -/
def pyStrip (s : String) : String :=
  ((s.data.dropWhile Char.isWhitespace).reverse.dropWhile Char.isWhitespace).reverse.asString

/-- Helper for `pySplitComma`: accumulates the current fragment (reversed). -/
def splitCommaAux : List Char → List Char → List String
  | [], acc => [acc.reverse.asString]
  | c :: cs, acc =>
      if c = ',' then acc.reverse.asString :: splitCommaAux cs []
      else splitCommaAux cs (c :: acc)

/-- Model of Python's `raw_input.split(',')` (line 108): the fragments
between commas, in order; consecutive commas and a leading or trailing comma
produce empty fragments, and the empty string yields one empty fragment. -/
def pySplitComma (s : String) : List String :=
  splitCommaAux s.data []

/-- Value of a nonempty digit string, most significant digit first. -/
def digitsToNat (cs : List Char) : Nat :=
  cs.foldl (fun acc c => acc * 10 + (c.toNat - ('0').toNat)) 0

/-- All characters are decimal digits. -/
def allDigits (cs : List Char) : Bool :=
  cs.all (fun c => c.isDigit)

/-- Mantissa of a Python float literal: `digits`, `digits.digits`, `digits.`
or `.digits` — at least one digit overall, nothing but digits around at most
one dot. -/
def parseMantissa (cs : List Char) : Option ℚ :=
  match cs.span (fun c => c != '.') with
  | (ip, []) =>
      if ip ≠ [] ∧ allDigits ip then some (digitsToNat ip) else none
  | (ip, _ :: fp) =>
      if ip ++ fp ≠ [] ∧ allDigits ip ∧ allDigits fp then
        some ((digitsToNat (ip ++ fp) : ℚ) / (10 : ℚ) ^ fp.length)
      else none

/-- Exponent part of a float literal: optionally signed digit string. -/
def parseSignedExp (cs : List Char) : Option ℤ :=
  match cs with
  | '+' :: rest => if rest ≠ [] ∧ allDigits rest then some (digitsToNat rest) else none
  | '-' :: rest => if rest ≠ [] ∧ allDigits rest then some (-(digitsToNat rest : ℤ)) else none
  | _ => if cs ≠ [] ∧ allDigits cs then some (digitsToNat cs) else none

/-- Multiply a rational by a signed power of ten. -/
def applyExp (q : ℚ) (e : ℤ) : ℚ :=
  if 0 ≤ e then q * (10 : ℚ) ^ e.toNat else q / (10 : ℚ) ^ (-e).toNat

/-- Split a float literal at the first `e`/`E`, if any. -/
def splitOnExp (cs : List Char) : List Char × Option (List Char) :=
  match cs.span (fun c => c != 'e' && c != 'E') with
  | (m, []) => (m, none)
  | (m, _ :: rest) => (m, some rest)

/-- Unsigned float literal: mantissa with optional exponent. -/
def pyFloatCore (cs : List Char) : Option ℚ :=
  match splitOnExp cs with
  | (m, none) => parseMantissa m
  | (m, some ec) =>
      match parseMantissa m, parseSignedExp ec with
      | some mv, some ev => some (applyExp mv ev)
      | _, _ => none

/-- Model of Python's `float(s)` on an already-stripped string (line 108):
`some q` when the string is a decimal number, `none` when `float` raises
`ValueError`. -/
def pyFloat (s : String) : Option ℚ :=
  match s.data with
  | '+' :: rest => pyFloatCore rest
  | '-' :: rest => (pyFloatCore rest).map (fun q => -q)
  | cs => pyFloatCore cs

/-- The list comprehension of line 108 applied to the fragments of
`raw.split(',')`: fragments that are empty after stripping are skipped,
a fragment that fails to parse raises `ValueError` (modelled as `none`). -/
def parseFrags : List String → Option (List ℚ)
  | [] => some []
  | f :: fs =>
      let t := pyStrip f
      if t = "" then parseFrags fs
      else
        match pyFloat t with
        | none => none
        | some v =>
            match parseFrags fs with
            | none => none
            | some rest => some (v :: rest)

/-- `vals = [float(v.strip()) for v in raw_input.split(',') if v.strip() != '']`
(line 108). -/
def parseVals (raw : String) : Option (List ℚ) :=
  parseFrags (pySplitComma raw)

/-- The scaler object: `transform` takes a list of rows (the code passes the
singleton `[vals]`, line 116) and may raise (modelled as `Except`). -/
structure ScalerM where
  transform : List (List ℚ) → Except Unit (List (List ℚ))

/-- The model object: `predict` takes the scaled rows and returns a list of
labels (the code takes element 0, line 117) and may raise. -/
structure ModelM where
  predict : List (List ℚ) → Except Unit (List ℤ)

/-- `DummyModel.predict` (lines 70-72 and 90-92): always returns `[0]`. -/
def dummyModelPredict (_X : List (List ℚ)) : List ℤ := [0]

/-- `DummyScaler.transform` (lines 74-76 and 94-96): returns its input
unchanged. -/
def dummyScalerTransform (X : List (List ℚ)) : List (List ℚ) := X

/-- The stub model substituted when the artifact is missing or corrupt. -/
def dummyModel : ModelM := ⟨fun X => .ok (dummyModelPredict X)⟩

/-- The stub scaler substituted when the artifact is missing or corrupt. -/
def dummyScaler : ScalerM := ⟨fun X => .ok (dummyScalerTransform X)⟩

/-- Lines 116-117: `X_scaled = scaler.transform([vals])` then
`pred = int(model.predict(X_scaled)[0])`.  Any exception in either step
(including an empty prediction list, where `[0]` would raise `IndexError`)
is caught by the inner `except` of lines 118-121. -/
def classifyStep (scaler : ScalerM) (model : ModelM) (vals : List ℚ) : Except Unit ℤ :=
  match scaler.transform [vals] with
  | .error _ => .error ()
  | .ok X_scaled =>
      match model.predict X_scaled with
      | .error _ => .error ()
      | .ok preds =>
          match preds with
          | [] => .error ()
          | p :: _ => .ok p

/-- One row of the `predictions` table: id, username, timestamp (assigned at
write time), prediction label, and the 30 feature values. -/
structure PredictionRecord where
  id : ℕ
  username : String
  timestamp : ℕ
  prediction : ℤ
  features : List ℚ
deriving DecidableEq

/-- The backing store: the rows of the `predictions` table plus the next
autoincrement id. -/
structure DB where
  rows : List PredictionRecord
  nextId : ℕ
deriving DecidableEq

/-- Category of a flashed message (`"error"`, `"warning"`, `"success"`). -/
inductive FlashCat
  | error
  | warning
  | success
deriving DecidableEq

/-- A flashed message with its category. -/
structure Flash where
  msg : String
  cat : FlashCat
deriving DecidableEq

/-- Outcome of a request handler: render the form, redirect to the form or
to the records page with a flashed message, or render the records table. -/
inductive Response
  | renderIndex
  | redirectIndex (f : Flash)
  | redirectRecords (f : Flash)
  | renderRecords (rows : List PredictionRecord)
deriving DecidableEq

/-- The label text used in the flash messages (lines 134 and 138). -/
def labelName (p : ℤ) : String :=
  if p = 0 then "Benign" else "Malignant"

/-- The POST branch of `index` (lines 104-148).  `form_username` and
`form_features` are the form fields (`none` models a missing field, whose
`KeyError` falls through to the outermost `except Exception`).  `writeOk`
models whether the database write of lines 128-130 succeeds; `now` is the
timestamp the store assigns at write time.  Returns the response together
with the resulting store. -/
def index_post (form_username form_features : Option String) (scaler : ScalerM)
    (model : ModelM) (writeOk : Bool) (db : DB) (now : ℕ) : Response × DB :=
  match form_username, form_features with
  | some u, some raw =>
      let username := pyStrip u
      match parseVals raw with
      | none =>
          (.redirectIndex ⟨"All feature fields must be valid numbers.", .error⟩, db)
      | some vals =>
          if vals.length ≠ feature_names.length then
            (.redirectIndex ⟨"Expected " ++ toString feature_names.length ++
                " values but got " ++ toString vals.length ++ ".", .error⟩, db)
          else
            match classifyStep scaler model vals with
            | .error _ =>
                (.redirectIndex ⟨"Error making prediction. Please try again.", .error⟩, db)
            | .ok pred =>
                if writeOk then
                  (.redirectRecords ⟨"Prediction for " ++ username ++ ": " ++
                      labelName pred, .success⟩,
                   ⟨db.rows ++ [⟨db.nextId, username, now, pred, vals⟩], db.nextId + 1⟩)
                else
                  (.redirectIndex ⟨"Error saving to database. Your prediction was: " ++
                      labelName pred, .warning⟩, db)
  | _, _ =>
      (.redirectIndex ⟨"An unexpected error occurred. Please try again.", .error⟩, db)

/-- `SELECT * FROM predictions ORDER BY timestamp DESC` (line 156): all rows,
sorted by timestamp descending. -/
def listAll (db : DB) : List PredictionRecord :=
  db.rows.mergeSort (fun a b => decide (b.timestamp ≤ a.timestamp))

/-- The `records` route (lines 152-161): on a successful read it renders all
rows ordered by timestamp descending; when the read raises (`readOk = false`)
the handler flashes an error and redirects to the form. -/
def records_route (readOk : Bool) (db : DB) : Response :=
  if readOk then .renderRecords (listAll db)
  else .redirectIndex ⟨"Error loading prediction records.", .error⟩

/-- The prediction rows a response displays: only a rendered records page
shows any. -/
def renderedRows : Response → List PredictionRecord
  | .renderRecords rows => rows
  | _ => []

/-- Run a sequence of submissions through the POST handler, with successful
writes and strictly increasing timestamps. -/
def submitMany (subs : List (String × String)) (scaler : ScalerM) (model : ModelM)
    (db : DB) (t : ℕ) : DB :=
  match subs with
  | [] => db
  | (u, raw) :: rest =>
      submitMany rest scaler model
        (index_post (some u) (some raw) scaler model true db t).2 (t + 1)

/-- SQL value as bound into the parameterized INSERT. -/
inductive Val
  | s (v : String)
  | i (v : ℤ)
  | r (v : ℚ)
deriving DecidableEq

/-- Column list of the INSERT of lines 125-127: `username`, `prediction`,
then the sanitized feature names, generated from `feature_names` in order. -/
def insertCols : List String :=
  "username" :: "prediction" :: feature_names.map sanitize

/-- Parameter list of the INSERT (line 129): `[username, pred, *vals]`. -/
def insertVals (username : String) (pred : ℤ) (vals : List ℚ) : List Val :=
  Val.s username :: Val.i pred :: vals.map Val.r

/-- The row as the INSERT binds it: each column of the column list paired
positionally with the corresponding parameter. -/
def insertRow (username : String) (pred : ℤ) (vals : List ℚ) : List (String × Val) :=
  insertCols.zip (insertVals username pred vals)

/-- Reading the stored row back: `SELECT *` yields the feature columns in
schema order (the sanitized `feature_names` order, lines 41-50); for each
such column the stored value is the one the INSERT bound to that column
name. -/
def readRowFeatures (row : List (String × Val)) : List (Option Val) :=
  (feature_names.map sanitize).map (fun c => List.lookup c row)

/-- Most-recent-first order on stored rows: the later timestamp comes first. -/
def tsDesc (a b : PredictionRecord) : Prop := b.timestamp ≤ a.timestamp

/-- Validity of a batch of submissions: each parses to a 30-element vector on
which the classifier succeeds. -/
def allValid (scaler : ScalerM) (model : ModelM) (subs : List (String × String)) : Prop :=
  ∀ p ∈ subs, ∃ vals pred, parseVals p.2 = some vals ∧ vals.length = 30 ∧
    classifyStep scaler model vals = Except.ok pred

/-- A 30-element comma-separated feature string used as a concrete input. -/
def ones30 : String := "1,1,1,1,1,1,1,1,1,1,1,1,1,1,1,1,1,1,1,1,1,1,1,1,1,1,1,1,1,1"

/-! ### Helper lemmas -/

theorem feature_names_length : feature_names.length = 30 := rfl

theorem insertCols_nodup : insertCols.Nodup := by decide

/-- The full-success path of the POST handler: valid parse, correct count,
successful classification, successful write. -/
theorem index_post_success (u raw : String) (scaler : ScalerM) (model : ModelM)
    (db : DB) (now : ℕ) (vals : List ℚ) (pred : ℤ)
    (hp : parseVals raw = some vals) (hl : vals.length = 30)
    (hc : classifyStep scaler model vals = Except.ok pred) :
    index_post (some u) (some raw) scaler model true db now
      = (.redirectRecords ⟨"Prediction for " ++ pyStrip u ++ ": " ++ labelName pred, .success⟩,
         ⟨db.rows ++ [⟨db.nextId, pyStrip u, now, pred, vals⟩], db.nextId + 1⟩) := by
  simp [index_post, hp, hl, feature_names_length, hc]

/-- The degraded path of the POST handler: classification succeeded but the
database write raised. -/
theorem index_post_fail_write (u raw : String) (scaler : ScalerM) (model : ModelM)
    (db : DB) (now : ℕ) (vals : List ℚ) (pred : ℤ)
    (hp : parseVals raw = some vals) (hl : vals.length = 30)
    (hc : classifyStep scaler model vals = Except.ok pred) :
    index_post (some u) (some raw) scaler model false db now
      = (.redirectIndex ⟨"Error saving to database. Your prediction was: " ++ labelName pred,
          .warning⟩, db) := by
  simp [index_post, hp, hl, feature_names_length, hc]

/-- A successful `parseFrags` means every fragment that is nonempty after
stripping parses as a number. -/
theorem parseFrags_none_of_bad (fs : List String)
    (h : ∃ f ∈ fs, pyStrip f ≠ "" ∧ pyFloat (pyStrip f) = none) :
    parseFrags fs = none := by
  induction fs with
  | nil => simp at h
  | cons g gs ih =>
      obtain ⟨f, hf, hne, hnone⟩ := h
      simp only [List.mem_cons] at hf
      rcases hf with rfl | hf
      · simp [parseFrags, hne, hnone]
      · have hrest := ih ⟨f, hf, hne, hnone⟩
        by_cases hg : pyStrip g = ""
        · simp [parseFrags, hg, hrest]
        · cases hpf : pyFloat (pyStrip g) <;> simp [parseFrags, hg, hpf, hrest]

/-- Fragments that are empty after stripping are skipped: removing them does
not change the parse result. -/
theorem parseFrags_filter_empties (fs : List String) :
    parseFrags (fs.filter (fun f => !(pyStrip f == ""))) = parseFrags fs := by
  induction fs with
  | nil => rfl
  | cons g gs ih =>
      by_cases hg : pyStrip g = ""
      · simp [List.filter, hg, parseFrags, ih]
      · have hg' : (pyStrip g == "") = false := by simpa using hg
        cases hpf : pyFloat (pyStrip g) <;>
          simp [List.filter, hg, hg', parseFrags, hpf, ih]

/-- Looking up the i-th key of a zipped association list with distinct keys
returns the i-th value. -/
theorem lookup_zip_getElem {β : Type} (keys : List String) :
    ∀ (values : List β) (i : ℕ) (h1 : i < keys.length) (h2 : i < values.length),
      keys.Nodup → List.lookup keys[i] (keys.zip values) = some values[i] := by
  induction keys with
  | nil => intro values i h1 h2 _; simp at h1
  | cons k ks ih =>
      intro values i h1 h2 hnd
      cases values with
      | nil => simp at h2
      | cons v vs =>
          cases i with
          | zero => simp [List.lookup]
          | succ n =>
              have h1n : n < ks.length := by simpa using h1
              have h2n : n < vs.length := by simpa using h2
              have hk : k ∉ ks := (List.nodup_cons.mp hnd).1
              have hne : (ks[n] == k) = false := by
                simp only [beq_eq_false_iff_ne]
                intro he
                exact hk (he ▸ List.getElem_mem h1n)
              have hrec := ih vs n h1n h2n (List.nodup_cons.mp hnd).2
              simpa [List.zip_cons_cons, List.lookup_cons, hne] using hrec

/-- The listing is always sorted most-recent-first. -/
theorem listAll_sorted (db : DB) : List.Pairwise tsDesc (listAll db) := by
  have h : List.Pairwise
      (fun a b : PredictionRecord => decide (b.timestamp ≤ a.timestamp) = true)
      (listAll db) := by
    apply List.sorted_mergeSort
    · intro a b c hab hbc
      simp only [decide_eq_true_eq] at hab hbc ⊢
      omega
    · intro a b
      simp only [Bool.or_eq_true, decide_eq_true_eq]
      omega
  exact h.imp (fun hab => by simpa [tsDesc] using hab)

/-- Each valid submission appends exactly one row. -/
theorem submitMany_rows_length (scaler : ScalerM) (model : ModelM) :
    ∀ (subs : List (String × String)) (db : DB) (t : ℕ),
      allValid scaler model subs →
      (submitMany subs scaler model db t).rows.length = db.rows.length + subs.length
  | [], db, t, _ => by simp [submitMany]
  | (u, raw) :: rest, db, t, hv => by
      obtain ⟨vals, pred, hp, hl, hc⟩ := hv (u, raw) (by simp)
      have hrest : allValid scaler model rest := fun q hq => hv q (by simp [hq])
      have hstep := index_post_success u raw scaler model db t vals pred hp hl hc
      have ih := submitMany_rows_length scaler model rest
        (index_post (some u) (some raw) scaler model true db t).2 (t + 1) hrest
      rw [hstep] at ih
      simp only [submitMany]
      rw [hstep]
      simp only [ih, List.length_append, List.length_cons, List.length_nil]
      omega

/-! ### Claims -/

/-- C1: for every successful submission the 30 feature values persisted in
the prediction row are exactly the raw parsed input values; the scaler's
transform touches only the classifier's input (`classifyStep` feeds
`scaler.transform [vals]` to the model), never the stored values — the stored
row holds `vals` itself for every scaler. -/
theorem c1_raw_values_stored (u raw : String) (scaler : ScalerM) (model : ModelM)
    (db : DB) (now : ℕ) (vals : List ℚ) (pred : ℤ)
    (hp : parseVals raw = some vals) (hl : vals.length = 30)
    (hc : classifyStep scaler model vals = Except.ok pred) :
    (index_post (some u) (some raw) scaler model true db now).2
      = ⟨db.rows ++ [⟨db.nextId, pyStrip u, now, pred, vals⟩], db.nextId + 1⟩ := by
  rw [index_post_success u raw scaler model db now vals pred hp hl hc]

theorem c1_witness :
    (index_post (some " alice ") (some ones30) dummyScaler dummyModel true ⟨[], 3⟩ 7).2
      = ⟨[⟨3, "alice", 7, 0, List.replicate 30 1⟩], 4⟩ :=
  c1_raw_values_stored " alice " ones30 dummyScaler dummyModel ⟨[], 3⟩ 7
    (List.replicate 30 1) 0 (by decide) (by decide) rfl

/-- C2: round-trip alignment — a row inserted with a known 30-element feature
vector reads back as the identical vector in the identical `feature_names`
order, because the INSERT's column list and value list are positionally
aligned and the sanitized column names are distinct. -/
theorem c2_roundtrip_alignment (u : String) (p : ℤ) (vals : List ℚ)
    (h : vals.length = 30) :
    readRowFeatures (insertRow u p vals) = vals.map (fun v => some (Val.r v)) := by
  have hnames : (feature_names.map sanitize).length = 30 := by decide
  have hnd := insertCols_nodup
  simp only [insertCols, List.nodup_cons] at hnd
  obtain ⟨hnu, hnp, hndn⟩ := hnd
  apply List.ext_getElem
  · simp [readRowFeatures, hnames, h, feature_names_length]
  · intro i h1 h2
    have hi : i < 30 := by simpa [readRowFeatures, hnames] using h1
    have hif : i < feature_names.length := by
      simp only [feature_names_length]; omega
    have hin : i < (feature_names.map sanitize).length := by omega
    have hiv : i < (vals.map Val.r).length := by
      simp only [List.length_map, h]; omega
    simp only [readRowFeatures, List.getElem_map]
    have hmem : sanitize feature_names[i] ∈ feature_names.map sanitize := by
      simpa using List.getElem_mem hin
    have hu : ((sanitize feature_names[i]) == "username") = false := by
      simp only [beq_eq_false_iff_ne]
      intro he
      exact hnu (he ▸ List.mem_cons_of_mem _ hmem)
    have hp : ((sanitize feature_names[i]) == "prediction") = false := by
      simp only [beq_eq_false_iff_ne]
      intro he
      exact hnp (he ▸ hmem)
    have hlook := lookup_zip_getElem (feature_names.map sanitize) (vals.map Val.r)
      i hin hiv hndn
    simp only [List.getElem_map] at hlook
    show List.lookup (sanitize feature_names[i])
        (("username", Val.s u) :: ("prediction", Val.i p) ::
          (feature_names.map sanitize).zip (vals.map Val.r))
      = some (Val.r vals[i])
    simp only [List.lookup_cons, hu, hp]
    exact hlook

theorem c2_witness :
    readRowFeatures (insertRow "alice" 1 (List.replicate 30 (2 : ℚ)))
      = (List.replicate 30 (2 : ℚ)).map (fun v => some (Val.r v)) :=
  c2_roundtrip_alignment "alice" 1 (List.replicate 30 2) (by decide)

/-- C3: a submission whose parsed feature count differs from 30 fails with
the validation message reporting the expected and actual counts, and the
store is unchanged. -/
theorem c3_count_mismatch (u raw : String) (scaler : ScalerM) (model : ModelM)
    (writeOk : Bool) (db : DB) (now : ℕ) (vals : List ℚ)
    (hp : parseVals raw = some vals) (hne : vals.length ≠ 30) :
    index_post (some u) (some raw) scaler model writeOk db now
      = (.redirectIndex ⟨"Expected " ++ toString (30 : ℕ) ++ " values but got " ++
          toString vals.length ++ ".", .error⟩, db) := by
  simp only [index_post, hp, feature_names_length]
  rw [if_pos hne]

theorem c3_witness :
    index_post (some "bob") (some "1,2") dummyScaler dummyModel true ⟨[], 0⟩ 0
      = (.redirectIndex ⟨"Expected 30 values but got 2.", .error⟩, ⟨[], 0⟩) :=
  c3_count_mismatch "bob" "1,2" dummyScaler dummyModel true ⟨[], 0⟩ 0 [1, 2]
    (by decide) (by decide)

/-- C4: a submission containing a fragment that is nonempty after stripping
but does not parse as a number fails with the validation message
"All feature fields must be valid numbers." and nothing is written, while
fragments that are empty after stripping are skipped rather than treated as
errors (dropping them from the fragment list does not change the parse). -/
theorem c4_nonnumeric_fragment (u raw : String) (scaler : ScalerM) (model : ModelM)
    (writeOk : Bool) (db : DB) (now : ℕ) (s : String)
    (hbad : ∃ f ∈ pySplitComma raw, pyStrip f ≠ "" ∧ pyFloat (pyStrip f) = none) :
    index_post (some u) (some raw) scaler model writeOk db now
      = (.redirectIndex ⟨"All feature fields must be valid numbers.", .error⟩, db)
    ∧ parseFrags ((pySplitComma s).filter (fun f => !(pyStrip f == "")))
        = parseVals s := by
  constructor
  · have hnone : parseVals raw = none := parseFrags_none_of_bad (pySplitComma raw) hbad
    simp [index_post, hnone]
  · exact parseFrags_filter_empties (pySplitComma s)

theorem c4_witness :
    (index_post (some "bob") (some "1,abc,3") dummyScaler dummyModel true ⟨[], 0⟩ 0
      = (.redirectIndex ⟨"All feature fields must be valid numbers.", .error⟩, ⟨[], 0⟩))
    ∧ parseFrags ((pySplitComma "1,,2,").filter (fun f => !(pyStrip f == "")))
        = parseVals "1,,2," :=
  c4_nonnumeric_fragment "bob" "1,abc,3" dummyScaler dummyModel true ⟨[], 0⟩ 0 "1,,2,"
    ⟨"abc", by decide, by decide, by decide⟩

/-- C5: under the stub artifact (missing or corrupt model file) the scaling
step is the identity and `predict` always returns `[0]`, so classification
always yields label 0 and every valid submission stores and reports label 0
(benign). -/
theorem c5_stub_always_benign (u raw : String) (db : DB) (now : ℕ) (vals w : List ℚ)
    (hp : parseVals raw = some vals) (hl : vals.length = 30) :
    classifyStep dummyScaler dummyModel w = Except.ok 0
    ∧ index_post (some u) (some raw) dummyScaler dummyModel true db now
        = (.redirectRecords ⟨"Prediction for " ++ pyStrip u ++ ": " ++ labelName 0, .success⟩,
           ⟨db.rows ++ [⟨db.nextId, pyStrip u, now, 0, vals⟩], db.nextId + 1⟩) :=
  ⟨rfl, index_post_success u raw dummyScaler dummyModel db now vals 0 hp hl rfl⟩

theorem c5_witness :
    (classifyStep dummyScaler dummyModel [5, 5] = Except.ok 0)
    ∧ index_post (some "eve") (some ones30) dummyScaler dummyModel true ⟨[], 0⟩ 1
        = (.redirectRecords ⟨"Prediction for " ++ pyStrip "eve" ++ ": " ++ labelName 0,
            .success⟩,
           ⟨[⟨0, "eve", 1, 0, List.replicate 30 1⟩], 1⟩) :=
  c5_stub_always_benign "eve" ones30 ⟨[], 0⟩ 1 (List.replicate 30 1) [5, 5]
    (by decide) (by decide)

/-- C6: when classification succeeds but the database write fails, the caller
gets a degraded-success warning that still reports the computed label, the
store is unchanged, and that response differs from every full-success
response (which is a redirect to the records page). -/
theorem c6_degraded_success (u raw : String) (scaler : ScalerM) (model : ModelM)
    (db : DB) (now : ℕ) (vals : List ℚ) (pred : ℤ) (g : Flash)
    (hp : parseVals raw = some vals) (hl : vals.length = 30)
    (hc : classifyStep scaler model vals = Except.ok pred) :
    index_post (some u) (some raw) scaler model false db now
      = (.redirectIndex ⟨"Error saving to database. Your prediction was: " ++ labelName pred,
          .warning⟩, db)
    ∧ Response.redirectIndex ⟨"Error saving to database. Your prediction was: " ++
        labelName pred, .warning⟩ ≠ Response.redirectRecords g := by
  refine ⟨index_post_fail_write u raw scaler model db now vals pred hp hl hc, ?_⟩
  intro he
  exact Response.noConfusion he

theorem c6_witness :
    (index_post (some "carol") (some ones30) dummyScaler dummyModel false ⟨[], 0⟩ 0
      = (.redirectIndex ⟨"Error saving to database. Your prediction was: " ++ labelName 0,
          .warning⟩, ⟨[], 0⟩))
    ∧ Response.redirectIndex ⟨"Error saving to database. Your prediction was: " ++
        labelName 0, .warning⟩
        ≠ Response.redirectRecords ⟨"Prediction for carol: Benign", .success⟩ :=
  c6_degraded_success "carol" ones30 dummyScaler dummyModel ⟨[], 0⟩ 0
    (List.replicate 30 1) 0 ⟨"Prediction for carol: Benign", .success⟩
    (by decide) (by decide) rfl

/-- C7: the records listing returns all persisted rows ordered by timestamp
descending: after N successful submissions into an empty store it holds
exactly N records, pairwise ordered most-recent-first, and is a permutation
of the stored rows (no filtering, no pagination). -/
theorem c7_listAll_after_submissions (scaler : ScalerM) (model : ModelM)
    (subs : List (String × String)) (t : ℕ) (hv : allValid scaler model subs) :
    (listAll (submitMany subs scaler model ⟨[], 0⟩ t)).length = subs.length
    ∧ List.Pairwise tsDesc (listAll (submitMany subs scaler model ⟨[], 0⟩ t))
    ∧ List.Perm (listAll (submitMany subs scaler model ⟨[], 0⟩ t))
        (submitMany subs scaler model ⟨[], 0⟩ t).rows := by
  refine ⟨?_, listAll_sorted _, List.mergeSort_perm _ _⟩
  have hlen := submitMany_rows_length scaler model subs ⟨[], 0⟩ t hv
  simpa [listAll] using hlen

theorem c7_witness :
    ((listAll (submitMany [("a", ones30), ("b", ones30)] dummyScaler dummyModel
        ⟨[], 0⟩ 0)).length = 2)
    ∧ List.Pairwise tsDesc (listAll (submitMany [("a", ones30), ("b", ones30)]
        dummyScaler dummyModel ⟨[], 0⟩ 0))
    ∧ List.Perm (listAll (submitMany [("a", ones30), ("b", ones30)] dummyScaler
        dummyModel ⟨[], 0⟩ 0))
        (submitMany [("a", ones30), ("b", ones30)] dummyScaler dummyModel ⟨[], 0⟩ 0).rows :=
  c7_listAll_after_submissions dummyScaler dummyModel [("a", ones30), ("b", ones30)] 0
    (by
      intro p hp
      have hcases : p = ("a", ones30) ∨ p = ("b", ones30) := by simpa using hp
      rcases hcases with rfl | rfl
      · exact ⟨List.replicate 30 1, 0, by decide, by decide, rfl⟩
      · exact ⟨List.replicate 30 1, 0, by decide, by decide, rfl⟩)

/-- C8: evaluation of the handler on a submitter name that is empty after
trimming.  The code does not reject it: with a whitespace name and 30 valid
features the submission is accepted, a row with empty username is persisted
and a success response is returned, contradicting the intended
"reject empty name" invariant. -/
theorem c8_empty_name_accepted :
    pyStrip "   " = ""
    ∧ (index_post (some "   ") (some ones30) dummyScaler dummyModel true ⟨[], 0⟩ 0).2.rows
        = [⟨0, "", 0, 0, List.replicate 30 1⟩]
    ∧ (index_post (some "   ") (some ones30) dummyScaler dummyModel true ⟨[], 0⟩ 0).1
        = .redirectRecords ⟨"Prediction for : Benign", .success⟩ := by
  decide

/-- C9: when reading the history fails with a storage fault, the listing
operation returns an error-flash response that displays no records, instead
of crashing: `records_route` is total and yields the error redirect. -/
theorem c9_read_fault_listing (db : DB) :
    records_route false db = .redirectIndex ⟨"Error loading prediction records.", .error⟩
    ∧ renderedRows (records_route false db) = [] :=
  ⟨rfl, rfl⟩

/-- C10: a POST with a missing `username` or `features` field is caught by
the outermost handler: the response is the generic error notice and no row
is written (the store is returned unchanged), with no uncaught exception
(the handler is a total function). -/
theorem c10_missing_field (fu ff : Option String) (scaler : ScalerM) (model : ModelM)
    (writeOk : Bool) (db : DB) (now : ℕ) (h : fu = none ∨ ff = none) :
    index_post fu ff scaler model writeOk db now
      = (.redirectIndex ⟨"An unexpected error occurred. Please try again.", .error⟩, db) := by
  rcases h with rfl | rfl
  · cases ff <;> rfl
  · cases fu <;> rfl

theorem c10_witness :
    index_post none (some "1,2") dummyScaler dummyModel true ⟨[], 0⟩ 0
      = (.redirectIndex ⟨"An unexpected error occurred. Please try again.", .error⟩,
         ⟨[], 0⟩) :=
  c10_missing_field none (some "1,2") dummyScaler dummyModel true ⟨[], 0⟩ 0 (Or.inl rfl)

end App
